import Mathlib

/-!
Verification of the collection-membership and profile-completion workflow of
the smellywater fragrance-discovery application, as a shallow embedding of the
client logic in `src/lib/supabase.ts`, `src/smellywaterv2/profile.tsx`,
`src/smellywaterv2/collection-details.tsx`, `src/CollectionDetails.js`,
`src/ProfileScreen.js`, `src/context/SearchContext.js` and the search screen.

Remote calls are modelled by passing the backend response (or a response
oracle) as an explicit argument; thrown JavaScript exceptions are modelled
with `Except`; the backend tables are modelled as lists of rows.
-/

namespace SmellyWater

/-! ## Data model (the TypeScript interfaces in src/lib/supabase.ts) -/

/-- Error object returned by the supabase client; only the `code` field is
inspected by the application (`PGRST116` is the not-found / no-rows code). -/
structure SupaError where
  code : String
deriving Repr, DecidableEq

/-- Catalog item (`Perfume` interface).  The rich attribute fields
(rating, accords, notes) are never inspected by the workflow logic under
verification and are elided. -/
structure Perfume where
  id : Int
  perfName : String
  brand : Option String
  description : String
  image_url : Option String
deriving Repr, DecidableEq

/-- The `UserProfile` interface. -/
structure UserProfile where
  id : String
  username : String
  gender : Option String
  age : Option Int
  country : Option String
  created_at : String
  updated_at : String
deriving Repr, DecidableEq

/-- The `Collection` interface; `item_count` and `sample_images` are the
virtual (derived, non-persisted) fields. -/
structure Collection where
  id : String
  user_id : String
  name : String
  description : Option String
  is_default : Bool
  created_at : String
  updated_at : String
  item_count : Option Nat
  sample_images : Option (List String)
deriving Repr, DecidableEq

/-- The `CollectionItem` interface (membership row with denormalized
snapshot). -/
structure CollectionItem where
  id : String
  collection_id : String
  perfume_id : String
  perfume_name : String
  perfume_brand : String
  perfume_image_url : Option String
  notes : Option String
  created_at : String
deriving Repr, DecidableEq

/-! ## Username validation (validateUsername in src/smellywaterv2/profile.tsx,
lines 196-225) -/

/-- Character class of the regex `[a-zA-Z0-9_]`. -/
def isUsernameChar (c : Char) : Bool :=
  ('a' ≤ c && c ≤ 'z') || ('A' ≤ c && c ≤ 'Z') || ('0' ≤ c && c ≤ '9') || c = '_'

/-- The test `/^[a-zA-Z0-9_]+$/.test(usernameText)`: at least one character,
all from the class. -/
def usernameRegexTest (s : String) : Bool :=
  !s.data.isEmpty && s.data.all isUsernameChar

/-- JavaScript whitespace characters occurring in the inputs of interest. -/
def isJSWhitespaceChar (c : Char) : Bool :=
  c = ' ' || c = '\t' || c = '\n' || c = '\r'

/-- JavaScript String.prototype.trim: strip leading and trailing
whitespace. -/
def trimJS (s : String) : String :=
  ⟨((s.data.dropWhile isJSWhitespaceChar).reverse.dropWhile isJSWhitespaceChar).reverse⟩

/-- validateUsername.  The remote availability check
(`checkUsernameAvailability`, which can itself throw) is passed in as
`availability`; the resulting pair is (returned boolean, usernameError set). -/
def validateUsername (usernameText : String) (availability : Except SupaError Bool) :
    Bool × String :=
  if usernameText.length < 3 then
    (false, "Username must be at least 3 characters")
  else if usernameText.length > 20 then
    (false, "Username must be less than 20 characters")
  else if !usernameRegexTest usernameText then
    (false, "Username can only contain letters, numbers, and underscores")
  else
    match availability with
    | .error _ => (false, "Error checking username availability")
    | .ok false => (false, "Username is already taken")
    | .ok true => (true, "")

/-- The string of 21 copies of the character a. -/
def aTimes21 : String := ⟨List.replicate 21 'a'⟩

/-! ## Age validation (handleSaveProfile in src/smellywaterv2/profile.tsx,
lines 254-268) -/

/-- JavaScript parseInt with radix 10 on the relevant inputs: skip leading
whitespace, optional sign, then the maximal run of leading decimal digits;
NaN (modelled as `none`) when that run is empty. -/
def parseIntJS (s : String) : Option Int :=
  let trimmed := s.data.dropWhile isJSWhitespaceChar
  let signAndRest : Int × List Char :=
    match trimmed with
    | '-' :: cs => (-1, cs)
    | '+' :: cs => (1, cs)
    | cs => (1, cs)
  let digits := signAndRest.2.takeWhile Char.isDigit
  if digits.isEmpty then none
  else some (signAndRest.1 *
    ((digits.foldl (fun n c => n * 10 + (c.toNat - '0'.toNat)) 0 : Nat) : Int))

/-- The age-field validation slice of handleSaveProfile: reject empty input
(`!editedProfile.age.trim()`), then reject when
`isNaN(ageNumber) || ageNumber < 13 || ageNumber > 120`. -/
def ageInputAccepted (age : String) : Bool :=
  if (trimJS age).data.isEmpty then false
  else
    match parseIntJS age with
    | none => false
    | some n => decide (13 ≤ n) && decide (n ≤ 120)

/-! ## The gateway add-item operation (addPerfumeToCollection in
src/lib/supabase.ts, lines 487-527), over the collection_items table
modelled as a list of rows -/

/-- A supabase `.single()` call on the rows selected by the preceding
filters: it yields the row when the filtered set has exactly one row; with
zero rows or with more than one row it produces the error code PGRST116
(JSON object requested, multiple or no rows returned) and null data. -/
def singleRow {α : Type} (rows : List α) : Except SupaError α :=
  match rows with
  | [r] => .ok r
  | _ => .error ⟨"PGRST116"⟩

/-- The argument record of addPerfumeToCollection. -/
structure AddItemInput where
  collection_id : String
  perfume_id : String
  perfume_name : String
  perfume_brand : String
  perfume_image_url : Option String
  notes : Option String
deriving Repr, DecidableEq

/-- Errors thrown by addPerfumeToCollection: the duplicate-membership
error (`This perfume is already in the collection`) or a rethrown backend
error. -/
inductive AddItemError where
  | duplicate
  | backend (e : SupaError)
deriving Repr, DecidableEq

/-- The rows selected by `.eq(collection_id).eq(perfume_id)` in the
pre-insert existence check. -/
def pairRows (table : List CollectionItem) (cid pid : String) : List CollectionItem :=
  table.filter (fun r => r.collection_id == cid && r.perfume_id == pid)

/-- The denormalized row inserted by addPerfumeToCollection; `newId` and
`newCreatedAt` stand for the backend-generated columns. -/
def insertedRow (item : AddItemInput) (newId newCreatedAt : String) :
    CollectionItem :=
  { id := newId
    collection_id := item.collection_id
    perfume_id := item.perfume_id
    perfume_name := item.perfume_name
    perfume_brand := item.perfume_brand
    perfume_image_url := item.perfume_image_url
    notes := item.notes
    created_at := newCreatedAt }

/-- addPerfumeToCollection: pre-check for an existing (collection_id,
perfume_id) row; a found row throws the duplicate error with no insert, a
check error other than PGRST116 is rethrown, otherwise the denormalized row
is inserted.  Returns the table after the call together with the outcome. -/
def addPerfumeToCollection (table : List CollectionItem) (item : AddItemInput)
    (newId newCreatedAt : String) :
    List CollectionItem × Except AddItemError CollectionItem :=
  match singleRow (pairRows table item.collection_id item.perfume_id) with
  | .ok _ => (table, .error .duplicate)
  | .error e =>
    if e.code ≠ "PGRST116" then (table, .error (.backend e))
    else (table ++ [insertedRow item newId newCreatedAt],
      .ok (insertedRow item newId newCreatedAt))

/-! ## Default collections (createDefaultCollections in src/lib/supabase.ts,
lines 564-595, and loadUserCollections in src/smellywaterv2/profile.tsx,
lines 38-59) -/

/-- A row sent to the collections insert. -/
structure CollectionInsert where
  user_id : String
  name : String
  description : Option String
  is_default : Bool
deriving Repr, DecidableEq

/-- The two rows built by createDefaultCollections. -/
def defaultCollectionRows (userId : String) : List CollectionInsert :=
  [ { user_id := userId
      name := "My Collection"
      description := some ""
      is_default := true },
    { user_id := userId
      name := "Wishlist"
      description := some ""
      is_default := true } ]

/-- Backend echo of a successful bulk `.insert(rows).select()`: each
inserted row comes back with the fields that were sent plus the generated
id and timestamps. -/
def insertSelectEcho (rows : List CollectionInsert) (ids : List String)
    (ts : String) : List Collection :=
  (rows.zip ids).map fun ri =>
    { id := ri.2
      user_id := ri.1.user_id
      name := ri.1.name
      description := ri.1.description
      is_default := ri.1.is_default
      created_at := ts
      updated_at := ts
      item_count := none
      sample_images := none }

/-- createDefaultCollections: insert the two default rows and return them
with item_count 0 and no sample images. -/
def createDefaultCollections (userId : String) (ids : List String)
    (ts : String) : List Collection :=
  (insertSelectEcho (defaultCollectionRows userId) ids ts).map
    fun c => { c with item_count := some 0, sample_images := some [] }

/-- loadUserCollections (profile.tsx): `fetched` is the result of the
getUserCollections list query (which derives item_count and sample_images
for existing rows); when it returns zero collections the defaults are
created and stored instead. -/
def loadUserCollections (fetched : List Collection) (userId : String)
    (ids : List String) (ts : String) : List Collection :=
  if fetched.isEmpty then createDefaultCollections userId ids ts else fetched

/-! ## Profile-completion check (checkProfileCompletion in
src/smellywaterv2/profile.tsx, lines 61-86, getUserProfile in
src/lib/supabase.ts, lines 67-88) -/

/-- Outcome of a supabase single-record query: a data row or an error
object. -/
inductive SupaSingleResp (α : Type) where
  | data (a : α)
  | err (e : SupaError)
deriving Repr, DecidableEq

/-- getUserProfile: an error with code PGRST116 means no profile row and
yields null; any other error is rethrown. -/
def getUserProfile (resp : SupaSingleResp UserProfile) :
    Except SupaError (Option UserProfile) :=
  match resp with
  | .data p => .ok (some p)
  | .err e => if e.code = "PGRST116" then .ok none else .error e

/-- States of the profile-completion state machine of the spec. -/
inductive ProfileStatus where
  | checking
  | needs_completion
  | complete
deriving Repr, DecidableEq

/-- The profile-related slice of the ProfileScreen component state. -/
structure ProfileCheckState where
  loading : Bool
  userProfile : Option UserProfile
  needsProfileCompletion : Bool
  collectionsLoadTriggered : Bool
deriving Repr, DecidableEq

/-- checkProfileCompletion: a found profile is stored, completion is no
longer needed and collection loading is triggered; a null profile sets
needsProfileCompletion; a thrown error is caught and also sets
needsProfileCompletion; every branch ends loading. -/
def checkProfileCompletion (resp : SupaSingleResp UserProfile)
    (s : ProfileCheckState) : ProfileCheckState :=
  match getUserProfile resp with
  | .ok (some p) =>
      { s with
        userProfile := some p
        needsProfileCompletion := false
        collectionsLoadTriggered := true
        loading := false }
  | .ok none =>
      { s with needsProfileCompletion := true, loading := false }
  | .error _ =>
      { s with needsProfileCompletion := true, loading := false }

/-- The spec state machine read off the component state: checking while
the query is in flight, afterwards needs_completion or complete. -/
def profileStatus (s : ProfileCheckState) : ProfileStatus :=
  if s.loading then .checking
  else if s.needsProfileCompletion then .needs_completion
  else .complete

/-! ## Catalog reads (searchPerfumes and getPerfumes in src/lib/supabase.ts,
lines 241-299) -/

/-- Raw outcome of a supabase list query: a response with optional data, a
response carrying an error object, or an exception thrown in transport
(caught by the surrounding try). -/
inductive SupaListResp (α : Type) where
  | ok (data : Option (List α))
  | err (e : SupaError)
  | thrown (e : SupaError)

/-- searchPerfumes: an error response and a thrown exception both produce
the empty list (`return []`); data comes back as `data || []`.  The result
type records that the function can in principle rethrow, and the theorem
shows it never does. -/
def searchPerfumes (query : String) (resp : SupaListResp Perfume) :
    Except SupaError (List Perfume) :=
  match resp with
  | .ok d => .ok (d.getD [])
  | .err _ => .ok []
  | .thrown _ => .ok []

/-- testConnection: success exactly when neither the sample select nor the
count select failed; every branch returns rather than throwing. -/
def testConnection (r1 : SupaListResp Perfume) (r2 : SupaListResp Nat) : Bool :=
  match r1 with
  | .err _ => false
  | .thrown _ => false
  | .ok _ =>
    match r2 with
    | .err _ => false
    | .thrown _ => false
    | .ok _ => true

/-- getPerfumes: a failed connection test returns the empty list, then the
main query behaves like searchPerfumes. -/
def getPerfumes (r1 : SupaListResp Perfume) (r2 : SupaListResp Nat)
    (main : SupaListResp Perfume) : Except SupaError (List Perfume) :=
  if testConnection r1 r2 = false then .ok []
  else
    match main with
    | .ok d => .ok (d.getD [])
    | .err _ => .ok []
    | .thrown _ => .ok []

/-! ## Batch removal (handleDeleteSelected in
src/smellywaterv2/collection-details.tsx, lines 73-107, identical logic in
src/CollectionDetails.js, lines 63-95) -/

/-- The component state touched by the confirmed branch of
handleDeleteSelected, together with the delete requests it issued. -/
structure DeleteSelectedResult where
  requests : List String
  items : List CollectionItem
  selectedItems : List String
  isModifyMode : Bool
  success : Bool
deriving Repr, DecidableEq

/-- handleDeleteSelected after the user confirms the deletion: one
removePerfumeFromCollection request per selected id is issued in parallel
(`deletePromises`); `await Promise.all` resolves only when every request
succeeded, and only then is the local list filtered, the selection cleared
and modify mode left; a single rejection sends the whole batch to the catch
branch, which changes no local state.  `outcome` is the backend result of
the delete request for each item id. -/
def handleDeleteSelected (items : List CollectionItem)
    (selected : List String) (isModifyMode : Bool)
    (outcome : String → Except SupaError Unit) : DeleteSelectedResult :=
  if selected.length = 0 then
    { requests := []
      items := items
      selectedItems := selected
      isModifyMode := isModifyMode
      success := false }
  else if (selected.map outcome).all (fun r => r.isOk) then
    { requests := selected
      items := items.filter (fun it => !(selected.contains it.id))
      selectedItems := []
      isModifyMode := false
      success := true }
  else
    { requests := selected
      items := items
      selectedItems := selected
      isModifyMode := isModifyMode
      success := false }

/-- The remote collection_items table after the batch: each id whose
delete request succeeded has its row removed (removePerfumeFromCollection
deletes by row id); a failed request leaves its row in place. -/
def remoteAfterBatchDelete (remote : List CollectionItem)
    (selected : List String) (outcome : String → Except SupaError Unit) :
    List CollectionItem :=
  remote.filter (fun r => !(selected.contains r.id && (outcome r.id).isOk))

/-! ## Session sign-out reaction (the onAuthStateChange handlers in
src/smellywaterv2/profile.tsx, lines 106-121, and src/ProfileScreen.js,
lines 402-411) -/

/-- The ProfileScreen (profile.tsx) component state holding data loaded
for the current identity. -/
structure ProfileTsxState where
  user : Option String
  loading : Bool
  userProfile : Option UserProfile
  collections : List Collection
  needsProfileCompletion : Bool
deriving Repr, DecidableEq

/-- The profile.tsx onAuthStateChange handler on a null session
(sign-out): `setUser(null)` and `setLoading(false)`; no other state is
touched. -/
def onAuthStateChangeNullTsx (s : ProfileTsxState) : ProfileTsxState :=
  { s with user := none, loading := false }

/-- The component state of the ProfileScreen.js variant holding
collections. -/
structure ProfileJsState where
  user : Option String
  collections : List Collection
deriving Repr, DecidableEq

/-- The ProfileScreen.js onAuthStateChange handler on a null session:
`setUser(null)` and `setCollections([])`. -/
def onAuthStateChangeNullJs (s : ProfileJsState) : ProfileJsState :=
  { user := none, collections := [] }

/-! ## Debounced search (onChangeSearch in the search screen,
src/unnamed/part_008, lines 21-31, and performSearch in
src/context/SearchContext.js, lines 37-52) -/

/-- The SearchContext state together with the debounce timer ref of the
search screen and the trace of remote searchPerfumes calls issued. -/
structure SearchState where
  searchQuery : String
  results : List Perfume
  searching : Bool
  pendingTimer : Option String
  remoteCalls : List String
deriving Repr, DecidableEq

/-- performSearch: an empty or whitespace-only query clears the results
without any remote call; otherwise searchPerfumes is called once with the
trimmed query (`backend` supplies the rows it returns). -/
def performSearch (backend : String → List Perfume) (s : SearchState)
    (query : String) : SearchState :=
  if (trimJS query).data.isEmpty then
    { s with results := [], searching := false }
  else
    { s with
      results := backend (trimJS query)
      searching := false
      remoteCalls := s.remoteCalls ++ [trimJS query] }

/-- onChangeSearch: store the text, cancel any pending debounce timer
(`clearTimeout(debounceRef.current)`) and schedule a new timer that will
call performSearch with this text after the fixed 300 ms delay. -/
def onChangeSearch (s : SearchState) (text : String) : SearchState :=
  { s with searchQuery := text, pendingTimer := some text }

/-- Expiry of the debounce window: a pending timer fires performSearch
with its scheduled text; with no pending timer nothing happens. -/
def fireDebounceTimer (backend : String → List Perfume) (s : SearchState) :
    SearchState :=
  match s.pendingTimer with
  | none => s
  | some t => performSearch backend { s with pendingTimer := none } t

/-- Events of the search screen: a query-input change, or expiry of the
debounce delay. -/
inductive SearchEvent where
  | input (text : String)
  | timerFire

/-- One event step of the search screen. -/
def searchStep (backend : String → List Perfume) (s : SearchState) :
    SearchEvent → SearchState
  | .input t => onChangeSearch s t
  | .timerFire => fireDebounceTimer backend s

/-- Run a sequence of search-screen events. -/
def runSearchEvents (backend : String → List Perfume) (s : SearchState)
    (events : List SearchEvent) : SearchState :=
  events.foldl (searchStep backend) s

/-- The state before the user types: no pending timer, no calls issued. -/
def initialSearchState : SearchState :=
  { searchQuery := ""
    results := []
    searching := false
    pendingTimer := none
    remoteCalls := [] }

/-! ## Sorting (sortItems in src/smellywaterv2/collection-details.tsx,
lines 48-63, identical in src/CollectionDetails.js, lines 38-53) -/

/-- Insertion of one element into a list by a three-way JavaScript
comparator: x is placed before the first y with comparator value at most
zero.  Together with sortJS this models a stable comparison sort as the
ECMAScript specification requires of Array.prototype.sort: a comparator
result of 0 - including NaN, which SortCompare coerces to +0 - keeps the
original relative order. -/
def insertCmp {α : Type} (c : α → α → Int) (x : α) : List α → List α
  | [] => [x]
  | y :: ys => if c x y ≤ 0 then x :: y :: ys else y :: insertCmp c x ys

/-- Stable comparison sort by a JavaScript comparator. -/
def sortJS {α : Type} (c : α → α → Int) : List α → List α
  | [] => []
  | x :: xs => insertCmp c x (sortJS c xs)

/-- The value of `new Date(s).getTime()`: none models NaN, the value of
the invalid date produced for the empty string (and any other string
without digits); a date string is encoded by its digit sequence, which
preserves chronological order on the uniform ISO YYYY-MM-DD strings stored
in created_at. -/
def jsGetTime (s : String) : Option Int :=
  let digits := s.data.filter Char.isDigit
  if digits.isEmpty then none
  else some ((digits.foldl (fun n c => n * 10 + (c.toNat - '0'.toNat)) 0 : Nat) : Int)

/-- The recently_added comparator of sortItems,
`new Date(b.created_at).getTime() - new Date(a.created_at).getTime()`:
when either date is invalid the subtraction is NaN, which
Array.prototype.sort coerces to +0. -/
def cmpRecentlyAdded (a b : CollectionItem) : Int :=
  match jsGetTime a.created_at, jsGetTime b.created_at with
  | some ta, some tb => tb - ta
  | _, _ => 0

/-- Lexicographic code-point comparison of character lists. -/
def lexLtChars : List Char → List Char → Bool
  | [], [] => false
  | [], _ :: _ => true
  | _ :: _, [] => false
  | a :: as, b :: bs =>
    if a.toNat < b.toNat then true
    else if b.toNat < a.toNat then false
    else lexLtChars as bs

/-- localeCompare modelled as code-point comparison, which agrees with the
locale order on the plain ASCII names and brands involved (only the sign
of the value is used by the sort). -/
def localeCompare (a b : String) : Int :=
  if lexLtChars a.data b.data then -1
  else if lexLtChars b.data a.data then 1
  else 0

/-- The three sort keys of the collection-details screen. -/
inductive SortOption where
  | recently_added
  | brand
  | name

/-- sortItems: copy the list and sort it with the comparator selected by
the sort option (null brands are replaced by the empty string). -/
def sortItems (items : List CollectionItem) (sortOption : SortOption) :
    List CollectionItem :=
  match sortOption with
  | .brand => sortJS (fun a b => localeCompare a.perfume_brand b.perfume_brand) items
  | .name => sortJS (fun a b => localeCompare a.perfume_name b.perfume_name) items
  | .recently_added => sortJS cmpRecentlyAdded items

/-- Adjacent-pairwise sortedness by a JavaScript comparator. -/
def sortedByCmp {α : Type} (c : α → α → Int) (l : List α) : Prop :=
  List.Chain' (fun a b => c a b ≤ 0) l

/-- Inserting with insertCmp preserves adjacent sortedness whenever the
comparator is total. -/
theorem sortedByCmp_insertCmp {α : Type} {c : α → α → Int}
    (htot : ∀ a b, c a b ≤ 0 ∨ c b a ≤ 0) (x : α) :
    ∀ l : List α, sortedByCmp c l → sortedByCmp c (insertCmp c x l) := by
  intro l
  induction l with
  | nil =>
    intro _
    simp only [insertCmp, sortedByCmp]
    exact List.chain'_singleton x
  | cons y ys ih =>
    intro h
    by_cases hxy : c x y ≤ 0
    · simp only [insertCmp, if_pos hxy]
      exact List.chain'_cons.2 ⟨hxy, h⟩
    · have hyx : c y x ≤ 0 := (htot x y).resolve_left hxy
      simp only [insertCmp, if_neg hxy]
      cases ys with
      | nil =>
        simp only [insertCmp]
        exact List.chain'_cons.2 ⟨hyx, List.chain'_singleton x⟩
      | cons z zs =>
        obtain ⟨hyz, hzs⟩ := List.chain'_cons.1 h
        have hins := ih hzs
        by_cases hxz : c x z ≤ 0
        · simp only [insertCmp, if_pos hxz] at hins ⊢
          exact List.chain'_cons.2 ⟨hyx, hins⟩
        · simp only [insertCmp, if_neg hxz] at hins ⊢
          exact List.chain'_cons.2 ⟨hyz, hins⟩

/-- sortJS output is adjacent-sorted whenever the comparator is total. -/
theorem sortedByCmp_sortJS {α : Type} {c : α → α → Int}
    (htot : ∀ a b, c a b ≤ 0 ∨ c b a ≤ 0) :
    ∀ l : List α, sortedByCmp c (sortJS c l) := by
  intro l
  induction l with
  | nil => exact List.chain'_nil
  | cons x xs ih => exact sortedByCmp_insertCmp htot x _ ih

/-- The recently_added comparator is total in the sense needed for the
sortedness lemma: with an invalid date on either side it returns 0. -/
theorem cmpRecentlyAdded_total :
    ∀ a b, cmpRecentlyAdded a b ≤ 0 ∨ cmpRecentlyAdded b a ≤ 0 := by
  intro a b
  unfold cmpRecentlyAdded
  cases h1 : jsGetTime a.created_at <;> cases h2 : jsGetTime b.created_at <;>
    simp <;> omega

/-! ## Concrete rows used by the closed theorems -/

/-- A membership row used in examples, created 2024-01-01. -/
def itemA : CollectionItem :=
  { id := "r1"
    collection_id := "c1"
    perfume_id := "p1"
    perfume_name := "A"
    perfume_brand := "BrandA"
    perfume_image_url := none
    notes := none
    created_at := "2024-01-01" }

/-- A membership row used in examples, created 2024-01-02. -/
def itemB : CollectionItem :=
  { id := "r2"
    collection_id := "c1"
    perfume_id := "p2"
    perfume_name := "B"
    perfume_brand := "BrandB"
    perfume_image_url := none
    notes := none
    created_at := "2024-01-02" }

/-- A membership row whose creation timestamp is missing (empty). -/
def itemNoDate : CollectionItem :=
  { id := "r3"
    collection_id := "c1"
    perfume_id := "p3"
    perfume_name := "M"
    perfume_brand := "BrandM"
    perfume_image_url := none
    notes := none
    created_at := "" }

/-- A per-id delete outcome where the request for r1 succeeds and every
other request fails with a backend error. -/
def mixedOutcome : String → Except SupaError Unit :=
  fun i => if i = "r1" then .ok () else .error ⟨"500"⟩

/-- A per-id delete outcome where every request succeeds. -/
def allOkOutcome : String → Except SupaError Unit := fun _ => .ok ()

/-- A stored collection of the previous identity. -/
def sampleCollection : Collection :=
  { id := "col1"
    user_id := "u1"
    name := "My Collection"
    description := none
    is_default := true
    created_at := "t0"
    updated_at := "t0"
    item_count := some 3
    sample_images := some [] }

/-- A stored profile of the previous identity. -/
def sampleProfile : UserProfile :=
  { id := "u1"
    username := "alice"
    gender := none
    age := some 30
    country := some "US"
    created_at := "t0"
    updated_at := "t0" }

/-- A profile.tsx component state still holding the previous identity
collections and profile when the sign-out event arrives. -/
def staleTsxState : ProfileTsxState :=
  { user := some "u1"
    loading := false
    userProfile := some sampleProfile
    collections := [sampleCollection]
    needsProfileCompletion := false }

/-! ## Claim theorems C6, C7 -/

/-- C6: username validation rejects "ab" (too short), 21 copies of a
(too long) and "bad name!" (invalid characters) regardless of the remote
availability result, and accepts "valid_user1" when the availability check
reports it available. -/
theorem validateUsername_examples :
    (∀ a : Except SupaError Bool, (validateUsername "ab" a).1 = false)
    ∧ (∀ a : Except SupaError Bool, (validateUsername aTimes21 a).1 = false)
    ∧ (∀ a : Except SupaError Bool, (validateUsername "bad name!" a).1 = false)
    ∧ (validateUsername "valid_user1" (.ok true)).1 = true := by
  refine ⟨?_, ?_, ?_, ?_⟩
  · intro a; rfl
  · intro a; rfl
  · intro a; rfl
  · rfl

/-- C7: the age validation in handleSaveProfile rejects "12", "121" and
"abc", and accepts the boundary values "13" and "120". -/
theorem handleSaveProfile_age_validation :
    ageInputAccepted "12" = false
    ∧ ageInputAccepted "121" = false
    ∧ ageInputAccepted "abc" = false
    ∧ ageInputAccepted "13" = true
    ∧ ageInputAccepted "120" = true := by
  exact ⟨rfl, rfl, rfl, rfl, rfl⟩

/-- C2 amended: a (collection_id, perfume_id) pair with exactly one
existing membership row makes addPerfumeToCollection fail with the
duplicate error and leave the table unchanged; and from a table with no
row for the pair, adding the pair twice sequentially succeeds the first
time, is rejected with the duplicate error the second time, and leaves
exactly one row for the pair.  (With two or more existing rows the
`.single()` pre-check reports PGRST116 and the call inserts; see the
counterexample.) -/
theorem addPerfumeToCollection_duplicate_rejected
    (table : List CollectionItem) (item : AddItemInput)
    (id1 t1 id2 t2 : String)
    (hfresh : pairRows table item.collection_id item.perfume_id = []) :
    (∀ (occupied : List CollectionItem) (r : CollectionItem),
      pairRows occupied item.collection_id item.perfume_id = [r] →
      addPerfumeToCollection occupied item id2 t2 = (occupied, .error .duplicate))
    ∧ (addPerfumeToCollection table item id1 t1).2.isOk = true
    ∧ addPerfumeToCollection ((addPerfumeToCollection table item id1 t1).1) item id2 t2
        = ((addPerfumeToCollection table item id1 t1).1, .error .duplicate)
    ∧ (pairRows ((addPerfumeToCollection table item id1 t1).1)
        item.collection_id item.perfume_id).length = 1 := by
  have hdup : ∀ (occupied : List CollectionItem) (r : CollectionItem),
      pairRows occupied item.collection_id item.perfume_id = [r] →
      addPerfumeToCollection occupied item id2 t2 = (occupied, .error .duplicate) := by
    intro occupied r hr
    simp [addPerfumeToCollection, hr, singleRow]
  have h1 : (addPerfumeToCollection table item id1 t1).1
      = table ++ [insertedRow item id1 t1] := by
    simp [addPerfumeToCollection, hfresh, singleRow]
  have hpair : pairRows ((addPerfumeToCollection table item id1 t1).1)
      item.collection_id item.perfume_id = [insertedRow item id1 t1] := by
    rw [h1]
    unfold pairRows at hfresh ⊢
    rw [List.filter_append, hfresh]
    simp [insertedRow]
  refine ⟨hdup, ?_, ?_, ?_⟩
  · simp [addPerfumeToCollection, hfresh, singleRow, Except.isOk, Except.toBool]
  · exact hdup _ _ hpair
  · rw [hpair]
    rfl

/-- A concrete add-item argument used by the closed witnesses. -/
def sampleAddInput : AddItemInput :=
  { collection_id := "c1"
    perfume_id := "p1"
    perfume_name := "N"
    perfume_brand := "B"
    perfume_image_url := none
    notes := none }

/-- A collection_items table already holding two rows for the pair
(c1, p1) - the state the documented concurrent-add race can leave
behind. -/
def dupPairTable : List CollectionItem :=
  [insertedRow sampleAddInput "d1" "t1", insertedRow sampleAddInput "d2" "t2"]

/-- C2 counterexample: the pair (c1, p1) already has a membership row
(two of them), yet addPerfumeToCollection does not fail with the duplicate
error and does insert: the `.single()` pre-check reports PGRST116 on
multiple rows exactly as on zero rows, the code treats the pair as absent,
and a third row is appended. -/
theorem addPerfumeToCollection_multirow_counterexample :
    pairRows dupPairTable sampleAddInput.collection_id sampleAddInput.perfume_id ≠ []
    ∧ (addPerfumeToCollection dupPairTable sampleAddInput "i3" "t3").2
        = .ok (insertedRow sampleAddInput "i3" "t3")
    ∧ (addPerfumeToCollection dupPairTable sampleAddInput "i3" "t3").1
        = dupPairTable ++ [insertedRow sampleAddInput "i3" "t3"]
    ∧ (addPerfumeToCollection dupPairTable sampleAddInput "i3" "t3").2
        ≠ .error .duplicate := by
  refine ⟨?_, rfl, rfl, ?_⟩
  · intro h
    have h2 : ([insertedRow sampleAddInput "d1" "t1",
        insertedRow sampleAddInput "d2" "t2"] : List CollectionItem) = [] := h
    exact List.noConfusion h2
  · intro h
    have h2 : (Except.ok (insertedRow sampleAddInput "i3" "t3") :
        Except AddItemError CollectionItem) = .error .duplicate := h
    exact Except.noConfusion h2

/-- Closed witness for the add-twice scenario, starting from the empty
collection_items table. -/
theorem addPerfumeToCollection_duplicate_rejected_witness :
    (addPerfumeToCollection [] sampleAddInput "i1" "t1").2.isOk = true
    ∧ (pairRows ((addPerfumeToCollection [] sampleAddInput "i1" "t1").1)
        sampleAddInput.collection_id sampleAddInput.perfume_id).length = 1 := by
  have h := addPerfumeToCollection_duplicate_rejected [] sampleAddInput
    "i1" "t1" "i2" "t2" rfl
  exact ⟨h.2.1, h.2.2.2⟩

/-- C3: for an identity whose first list-collections query returns zero
rows, exactly two default collections are created, named My Collection and
Wishlist, both flagged default and both reported with item_count 0. -/
theorem createDefaultCollections_on_empty (userId id1 id2 ts : String) :
    (loadUserCollections [] userId [id1, id2] ts).length = 2
    ∧ (loadUserCollections [] userId [id1, id2] ts).map Collection.name
        = ["My Collection", "Wishlist"]
    ∧ ((loadUserCollections [] userId [id1, id2] ts).all
        Collection.is_default) = true
    ∧ (loadUserCollections [] userId [id1, id2] ts).map Collection.item_count
        = [some 0, some 0] := by
  exact ⟨rfl, rfl, rfl, rfl⟩

/-- C5: every outcome of the checking-state profile query leaves the
checking state: a found profile is stored and reaches complete with
collection loading triggered, and both a not-found result and any other
error reach needs_completion. -/
theorem checkProfileCompletion_leaves_checking :
    (∀ (resp : SupaSingleResp UserProfile) (s : ProfileCheckState),
      profileStatus (checkProfileCompletion resp s) ≠ .checking)
    ∧ (∀ (p : UserProfile) (s : ProfileCheckState),
      profileStatus (checkProfileCompletion (.data p) s) = .complete
      ∧ (checkProfileCompletion (.data p) s).userProfile = some p
      ∧ (checkProfileCompletion (.data p) s).collectionsLoadTriggered = true)
    ∧ (∀ (e : SupaError) (s : ProfileCheckState),
      profileStatus (checkProfileCompletion (.err e) s) = .needs_completion) := by
  have herr : ∀ (e : SupaError) (s : ProfileCheckState),
      profileStatus (checkProfileCompletion (.err e) s) = .needs_completion := by
    intro e s
    by_cases h : e.code = "PGRST116" <;>
      simp [checkProfileCompletion, getUserProfile, profileStatus, h]
  refine ⟨?_, ?_, herr⟩
  · intro resp s
    cases resp with
    | data p => intro hcon; exact ProfileStatus.noConfusion hcon
    | err e => rw [herr]; intro hcon; exact ProfileStatus.noConfusion hcon
  · intro p s
    exact ⟨rfl, rfl, rfl⟩

/-- C10: searchPerfumes and getPerfumes never raise; every backend error
and every transport exception produces the empty list, which is the same
result as a successful search with zero matches. -/
theorem searchPerfumes_getPerfumes_never_raise :
    (∀ (q : String) (resp : SupaListResp Perfume),
      ∃ l : List Perfume, searchPerfumes q resp = .ok l)
    ∧ (∀ (q : String) (e : SupaError),
      searchPerfumes q (.err e) = .ok []
      ∧ searchPerfumes q (.thrown e) = .ok []
      ∧ searchPerfumes q (.err e) = searchPerfumes q (.ok (some [])))
    ∧ (∀ (r1 : SupaListResp Perfume) (r2 : SupaListResp Nat)
        (main : SupaListResp Perfume),
      ∃ l : List Perfume, getPerfumes r1 r2 main = .ok l)
    ∧ (∀ (r1 : SupaListResp Perfume) (r2 : SupaListResp Nat) (e : SupaError),
      getPerfumes r1 r2 (.err e) = .ok []
      ∧ getPerfumes r1 r2 (.thrown e) = .ok []) := by
  refine ⟨?_, ?_, ?_, ?_⟩
  · intro q resp
    cases resp with
    | ok d => exact ⟨d.getD [], rfl⟩
    | err e => exact ⟨[], rfl⟩
    | thrown e => exact ⟨[], rfl⟩
  · intro q e
    exact ⟨rfl, rfl, rfl⟩
  · intro r1 r2 main
    by_cases h : testConnection r1 r2 = false
    · exact ⟨[], by simp [getPerfumes, h]⟩
    · cases main with
      | ok d => exact ⟨d.getD [], by simp [getPerfumes, h]⟩
      | err e => exact ⟨[], by simp [getPerfumes, h]⟩
      | thrown e => exact ⟨[], by simp [getPerfumes, h]⟩
  · intro r1 r2 e
    by_cases h : testConnection r1 r2 = false <;>
      simp [getPerfumes, h]

/-- C1 counterexample: with the two rows r1 and r2 selected and the delete
of r2 failing, `Promise.all` rejects, the handler takes the catch branch
and the local list keeps both rows - it does not drop the N selected items
as the claim states (dropping them would leave the empty list here). -/
theorem handleDeleteSelected_partial_failure_counterexample :
    (handleDeleteSelected [itemA, itemB] ["r1", "r2"] true mixedOutcome).items
      = [itemA, itemB]
    ∧ [itemA, itemB].filter (fun it => !(["r1", "r2"].contains it.id)) = []
    ∧ (handleDeleteSelected [itemA, itemB] ["r1", "r2"] true mixedOutcome).items
      ≠ [] := by
  refine ⟨rfl, rfl, ?_⟩
  intro h
  have h2 : ([itemA, itemB] : List CollectionItem) = [] := h
  exact List.noConfusion h2

/-- C1 amended: batch removal of N selected rows issues N independent
parallel delete requests, but the local list is updated only when all N
succeed; when any of the N fails the local list is left entirely
unchanged, while the individually successful deletions stay applied on the
remote table (so the inconsistency is stale local rows, not optimistic
removal). -/
theorem handleDeleteSelected_amended (items remote : List CollectionItem)
    (selected : List String) (m : Bool)
    (outcome : String → Except SupaError Unit) (hne : selected ≠ []) :
    (handleDeleteSelected items selected m outcome).requests = selected
    ∧ ((∀ i ∈ selected, (outcome i).isOk = true) →
        (handleDeleteSelected items selected m outcome).items
          = items.filter (fun it => !(selected.contains it.id)))
    ∧ ((∃ i ∈ selected, (outcome i).isOk = false) →
        (handleDeleteSelected items selected m outcome).items = items)
    ∧ (∀ i ∈ selected, (outcome i).isOk = true →
        ∀ r ∈ remoteAfterBatchDelete remote selected outcome, r.id ≠ i) := by
  have hlen : ¬ selected.length = 0 := by
    simpa [List.length_eq_zero] using hne
  refine ⟨?_, ?_, ?_, ?_⟩
  · unfold handleDeleteSelected
    rw [if_neg hlen]
    by_cases hall : (selected.map outcome).all (fun r => r.isOk) = true
    · rw [if_pos hall]
    · rw [if_neg hall]
  · intro hok
    have hall : (selected.map outcome).all (fun r => r.isOk) = true := by
      rw [List.all_eq_true]
      intro x hx
      obtain ⟨i, hi, rfl⟩ := List.mem_map.1 hx
      exact hok i hi
    unfold handleDeleteSelected
    rw [if_neg hlen, if_pos hall]
  · rintro ⟨i, hi, hfail⟩
    have hall : ¬ (selected.map outcome).all (fun r => r.isOk) = true := by
      rw [List.all_eq_true]
      intro hforall
      have hx := hforall (outcome i) (List.mem_map_of_mem outcome hi)
      rw [hfail] at hx
      exact Bool.noConfusion hx
    unfold handleDeleteSelected
    rw [if_neg hlen, if_neg hall]
  · intro i hi hok r hr heq
    unfold remoteAfterBatchDelete at hr
    rw [List.mem_filter] at hr
    have hpred := hr.2
    rw [heq] at hpred
    have hcont : selected.contains i = true := List.elem_eq_true_of_mem hi
    rw [hcont, hok] at hpred
    simp at hpred

/-- Closed witness for the all-succeed branch of the amended batch-delete
theorem. -/
theorem handleDeleteSelected_amended_witness :
    (handleDeleteSelected [itemA, itemB] ["r1", "r2"] true allOkOutcome).requests
      = ["r1", "r2"]
    ∧ (handleDeleteSelected [itemA, itemB] ["r1", "r2"] true allOkOutcome).items
      = [] := by
  have h := handleDeleteSelected_amended [itemA, itemB] [itemA, itemB]
    ["r1", "r2"] true allOkOutcome (by simp)
  refine ⟨h.1, ?_⟩
  have h2 := h.2.1 (by intro i hi; rfl)
  rw [h2]
  rfl

/-- C4: evaluated at a state still holding the previous identity data, the
profile.tsx sign-out handler clears only the user and the loading flag:
the loaded collections and profile survive the null transition (the
ProfileScreen.js variant, in contrast, does clear its collections). -/
theorem onAuthStateChange_null_state_survives :
    (onAuthStateChangeNullTsx staleTsxState).collections = [sampleCollection]
    ∧ (onAuthStateChangeNullTsx staleTsxState).userProfile = some sampleProfile
    ∧ (onAuthStateChangeNullTsx staleTsxState).user = none
    ∧ (onAuthStateChangeNullJs
        { user := some "u1", collections := [sampleCollection] }).collections
      = [] := by
  exact ⟨rfl, rfl, rfl, rfl⟩

/-- C8: typing a, ab, abc in quick succession (no debounce expiry between
the inputs) and then letting the debounce window expire issues exactly one
remote search call, for abc; and every input change replaces the pending
debounced call without issuing any remote call itself. -/
theorem searchDebounce_single_call :
    (∀ backend : String → List Perfume,
      (runSearchEvents backend initialSearchState
        [.input "a", .input "ab", .input "abc", .timerFire]).remoteCalls
      = ["abc"])
    ∧ (∀ (s : SearchState) (t : String),
      (onChangeSearch s t).pendingTimer = some t
      ∧ (onChangeSearch s t).remoteCalls = s.remoteCalls) := by
  exact ⟨fun backend => rfl, fun s t => ⟨rfl, rfl⟩⟩

/-- C9 counterexample: under the recently_added key a row with a missing
creation timestamp compares as NaN-coerced-to-zero against every row, so
it keeps its input position: sorting [itemNoDate, itemA] leaves itemNoDate
first instead of placing it last as the oldest element. -/
theorem sortItems_missing_timestamp_counterexample :
    sortItems [itemNoDate, itemA] .recently_added = [itemNoDate, itemA]
    ∧ sortItems [itemNoDate, itemA] .recently_added ≠ [itemA, itemNoDate] := by
  refine ⟨rfl, ?_⟩
  intro h
  have h2 : ([itemNoDate, itemA] : List CollectionItem) = [itemA, itemNoDate] := h
  have h3 : itemNoDate = itemA := by injection h2
  exact absurd (congrArg CollectionItem.id h3) (by decide)

/-- C9 amended: recently_added sorts descending by creation timestamp
(adjacent comparator values at most zero, and on rows with valid
timestamps the comparator orders by descending time); the spec examples
sort as stated; but a row with a missing timestamp compares equal to every
row and keeps its input position instead of sorting as the oldest
element. -/
theorem sortItems_recently_added_amended :
    (∀ items : List CollectionItem,
      sortedByCmp cmpRecentlyAdded (sortItems items .recently_added))
    ∧ (∀ (a b : CollectionItem) (ta tb : Int),
        jsGetTime a.created_at = some ta → jsGetTime b.created_at = some tb →
        (cmpRecentlyAdded a b ≤ 0 ↔ tb ≤ ta))
    ∧ sortItems [itemB, itemA] .name = [itemA, itemB]
    ∧ sortItems [itemB, itemA] .recently_added = [itemB, itemA]
    ∧ sortItems [itemNoDate, itemA] .recently_added = [itemNoDate, itemA] := by
  refine ⟨?_, ?_, ?_, ?_, ?_⟩
  · intro items
    exact sortedByCmp_sortJS cmpRecentlyAdded_total items
  · intro a b ta tb h1 h2
    unfold cmpRecentlyAdded
    rw [h1, h2]
    show tb - ta ≤ 0 ↔ tb ≤ ta
    omega
  · rfl
  · rfl
  · rfl

/-- Closed witness for the amended sorting theorem: the comparator on the
two dated example rows orders by descending time. -/
theorem sortItems_recently_added_amended_witness :
    cmpRecentlyAdded itemB itemA ≤ 0 ↔ (20240101 : Int) ≤ 20240102 :=
  sortItems_recently_added_amended.2.1 itemB itemA 20240102 20240101 rfl rfl

end SmellyWater
